import Mathlib

/-!
# Verification of the TradingView trade-log performance engine

Shallow embedding of `periodic_backtest.py`: the trade reducer
(`DataFrameTV.__init__` / `ConvertTradeTV.convert`) and the metrics engine
(`PerformanceSummary` / `CalculatePerformanceSummary`).

Modelling conventions:
* Python floats are modelled as `ℚ`; a float `NaN` (pandas' representation of
  an absent value) is modelled as `Option.none`, so numeric fields that can be
  absent have type `Option ℚ`.  Arithmetic on such values propagates `none`
  exactly as IEEE arithmetic propagates `NaN`.
* numpy float division is total: division by zero yields `±inf` (or `NaN` for
  `0/0`), never an exception.  The type `FVal` captures the four possible
  outcomes `finite / +inf / -inf / NaN` of the division-based metrics.
* Fallible Python code (`IndexError` from `.iloc`/list indexing,
  `AttributeError` from a missing DataFrame column, `KeyError` from
  `dropna(subset=...)` on a missing column) is modelled with `Except Err`.
* pandas timestamps are modelled as a civil date plus seconds-of-day (`Ts`);
  `pd.Grouper(freq="M")` bins a datetime index into calendar months, labels
  each bin with the month-end date, and its iterator yields every bin between
  the first and the last month, *including empty bins*.
* Every formula of the source accepts either a plain Python list of trades or
  a pandas DataFrame of them; `TradesArg` distinguishes the two, because the
  source treats them differently (`pd.DataFrame([])` has no columns, `dropna`
  is applied on the list branch only, and `monthly_performance` assigns to
  `trades.index` in place on the DataFrame branch).
-/

/-- Python exceptions that the embedded code can raise. -/
inductive Err where
  | indexError
  | attrError
  | keyError
deriving DecidableEq

/-- A pandas timestamp: civil date (year, month 1..12, day) plus
seconds-of-day. -/
structure Ts where
  y : Nat
  m : Nat
  d : Nat
  s : Nat
deriving DecidableEq

/-- Gregorian leap year. -/
def isLeap (y : Nat) : Bool :=
  y % 4 == 0 && (y % 100 != 0 || y % 400 == 0)

/-- Number of days of a calendar month (used for the month-end bin labels of
`pd.Grouper(freq="M")`). -/
def daysInMonth (y m : Nat) : Nat :=
  if m == 2 then (if isLeap y then 29 else 28)
  else if m == 4 || m == 6 || m == 9 || m == 11 then 30 else 31

/-- Days since 1970-01-01 of a civil date (standard civil-from-days inverse,
used only to give timestamps a linear order in seconds for durations). -/
def daysFromCivil (y m d : ℤ) : ℤ :=
  let yy := if m ≤ 2 then y - 1 else y
  let era := (if 0 ≤ yy then yy else yy - 399) / 400
  let yoe := yy - era * 400
  let mp := (m + 9) % 12
  let doy := (153 * mp + 2) / 5 + d - 1
  let doe := yoe * 365 + yoe / 4 - yoe / 100 + doy
  era * 146097 + doe - 719468

/-- A timestamp as seconds since the epoch (timestamp subtraction). -/
def tsToSec (t : Ts) : ℤ :=
  daysFromCivil (t.y : ℤ) (t.m : ℤ) (t.d : ℤ) * 86400 + (t.s : ℤ)

/-- The calendar month of a timestamp, linearised (`year * 12 + month - 1`);
this is the binning key of `pd.Grouper(freq="M")`. -/
def monthKey (t : Ts) : Nat := t.y * 12 + (t.m - 1)

/-- The direction enum (`class Type` of the source: `'long'` / `'short'`). -/
inductive TType where
  | long
  | short
deriving DecidableEq

/-- The `Trade` dataclass of the source.  Fields that the source defaults to
`None` / that can hold a float `NaN` are `Option`-valued. -/
structure Trade where
  type : TType
  entry_date : Ts
  entry_price : Option ℚ
  contract : Option ℚ
  entry_signal : Option String := none
  exit_date : Option Ts := none
  exit_price : Option ℚ := none
  exit_signal : Option String := none
  profit : Option ℚ := none
  profit_percent : Option ℚ := none
  draw_down : Option ℚ := none
  draw_down_percent : Option ℚ := none
  run_up : Option ℚ := none
  run_up_percent : Option ℚ := none
  cum_profit : Option ℚ := none
  cum_profit_percent : Option ℚ := none
deriving DecidableEq

/-- A pandas DataFrame of trades: the rows, plus the frame's index labels
(mutated in place by `monthly_performance`). -/
structure DF where
  rows : List Trade
  index : List Ts
deriving DecidableEq

/-- The `list or pd.DataFrame` argument every formula of the source accepts. -/
inductive TradesArg where
  | list (ts : List Trade)
  | df (d : DF)
deriving DecidableEq

/-- The rows an argument holds. -/
def rowsOf : TradesArg → List Trade
  | .list ts => ts
  | .df d => d.rows

/-- `pd.DataFrame([])` built from an empty Python list has no columns, so any
column access (`trades.profit`, …) raises `AttributeError`.  A DataFrame input
always has the trade columns (it was built from a non-empty frame). -/
def ensureCols : TradesArg → Except Err Unit
  | .list [] => .error .attrError
  | .list (_ :: _) => .ok ()
  | .df _ => .ok ()

/-- `.iloc[i]` / Python list indexing: `none` means the position does not
exist and `IndexError` is raised. -/
def liftIdx : Option α → Except Err α
  | some a => .ok a
  | none => .error .indexError

/-- The result of a numpy float division chain: finite, `±inf`, or `NaN`. -/
inductive FVal where
  | fin (q : ℚ)
  | inf
  | neginf
  | nan
deriving DecidableEq

/-- numpy float division: division by zero yields `±inf` (`NaN` for `0/0`). -/
def fdiv (a b : ℚ) : FVal :=
  if b = 0 then (if a = 0 then .nan else if 0 < a then .inf else .neginf)
  else .fin (a / b)

/-- Division where either operand may be `NaN` (`none`). -/
def fdivO : Option ℚ → Option ℚ → FVal
  | some a, some b => fdiv a b
  | _, _ => .nan

/-- Multiplication of a division result by a finite constant (the `* 100` of
the percent metrics). -/
def fscale (v : FVal) (c : ℚ) : FVal :=
  match v with
  | .fin q => .fin (q * c)
  | .inf => if 0 < c then .inf else if c < 0 then .neginf else .nan
  | .neginf => if 0 < c then .neginf else if c < 0 then .inf else .nan
  | .nan => .nan

/-- pandas `Series.sum()`: `NaN` entries are skipped; the empty sum is `0`. -/
def sumSome : List (Option ℚ) → ℚ
  | [] => 0
  | none :: l => sumSome l
  | some q :: l => q + sumSome l

/-- pandas `Series.count()`: the number of non-`NaN` entries. -/
def countSome : List (Option ℚ) → Nat
  | [] => 0
  | none :: l => countSome l
  | some _ :: l => countSome l + 1

/-- `profit > 0` on a float column: `NaN > 0` is false. -/
def posO : Option ℚ → Bool
  | some p => decide (0 < p)
  | none => false

/-- `profit < 0` on a float column: `NaN < 0` is false. -/
def negO : Option ℚ → Bool
  | some p => decide (p < 0)
  | none => false

/-- pandas `Series.max()`: `NaN` skipped; empty / all-`NaN` gives `NaN`. -/
def maxO : List (Option ℚ) → Option ℚ
  | [] => none
  | none :: l => maxO l
  | some q :: l => match maxO l with | none => some q | some a => some (max q a)

/-- pandas `Series.min()`: `NaN` skipped; empty / all-`NaN` gives `NaN`. -/
def minO : List (Option ℚ) → Option ℚ
  | [] => none
  | none :: l => minO l
  | some q :: l => match minO l with | none => some q | some a => some (min q a)

/-- Mean of a list of rationals; the empty mean is `NaN`. -/
def meanQ (l : List ℚ) : Option ℚ :=
  if l.length = 0 then none else some (l.sum / (l.length : ℚ))

/-- pandas `Series.mean()`: `NaN` skipped; empty / all-`NaN` gives `NaN`. -/
def meanO (l : List (Option ℚ)) : Option ℚ :=
  if countSome l = 0 then none else some (sumSome l / (countSome l : ℚ))

/-- `Timedelta.round("1s")`: round to the nearest second, ties to even. -/
def roundHalfEven (q : ℚ) : ℤ :=
  let f := ⌊q⌋
  let r := q - (f : ℚ)
  if r < 1/2 then f
  else if 1/2 < r then f + 1
  else if f % 2 = 0 then f else f + 1

namespace CalculatePerformanceSummary

/-- `trades[0].entry_price * trades[0].contract` (list branch) resp.
`trades.iloc[0].entry_price * trades.iloc[0].contract`: `IndexError` on an
empty collection; `NaN` if either factor is `NaN`. -/
def initial_capital (arg : TradesArg) : Except Err (Option ℚ) := do
  let t ← liftIdx (rowsOf arg).head?
  return (do
    let p ← t.entry_price
    let c ← t.contract
    pure (p * c))

/-- `trades.profit.sum()` after converting a list to a DataFrame. -/
def net_profit (arg : TradesArg) : Except Err ℚ := do
  ensureCols arg
  return sumSome ((rowsOf arg).map (·.profit))

/-- `(net_profit / initial_capital) * 100`. -/
def net_profit_percent (arg : TradesArg) : Except Err FVal := do
  let np ← net_profit arg
  let ic ← initial_capital arg
  return fscale (fdivO (some np) ic) 100

/-- `trades[trades.profit > 0].profit.sum()`. -/
def gross_profit (arg : TradesArg) : Except Err ℚ := do
  ensureCols arg
  return sumSome (((rowsOf arg).filter (fun t => posO t.profit)).map (·.profit))

/-- `(gross_profit / initial_capital) * 100`. -/
def gross_profit_percent (arg : TradesArg) : Except Err FVal := do
  let gp ← gross_profit arg
  let ic ← initial_capital arg
  return fscale (fdivO (some gp) ic) 100

/-- `trades[trades.profit < 0].profit.sum()`. -/
def gross_loss (arg : TradesArg) : Except Err ℚ := do
  ensureCols arg
  return sumSome (((rowsOf arg).filter (fun t => negO t.profit)).map (·.profit))

/-- `(gross_loss / initial_capital) * 100`. -/
def gross_loss_percent (arg : TradesArg) : Except Err FVal := do
  let gl ← gross_loss arg
  let ic ← initial_capital arg
  return fscale (fdivO (some gl) ic) 100

/-- `trades.run_up.max()`. -/
def max_run_up (arg : TradesArg) : Except Err (Option ℚ) := do
  ensureCols arg
  return maxO ((rowsOf arg).map (·.run_up))

/-- `trades.run_up_percent.max()`. -/
def max_run_up_percent (arg : TradesArg) : Except Err (Option ℚ) := do
  ensureCols arg
  return maxO ((rowsOf arg).map (·.run_up_percent))

/-- `-trades.draw_down.max()`. -/
def max_draw_down (arg : TradesArg) : Except Err (Option ℚ) := do
  ensureCols arg
  return (maxO ((rowsOf arg).map (·.draw_down))).map (fun q => -q)

/-- `-trades.draw_down_percent.max()`. -/
def max_draw_down_percent (arg : TradesArg) : Except Err (Option ℚ) := do
  ensureCols arg
  return (maxO ((rowsOf arg).map (·.draw_down_percent))).map (fun q => -q)

/-- `buy_and_hold`: `first_price = trades.entry_price.iloc[0]`;
`last_price = trades.iloc[-1].exit_price`, falling back to
`trades.iloc[-1].entry_price` when `math.isnan(last_price)`; the result is
`(last_price - first_price) * trades.contract.iloc[0]`. -/
def buy_and_hold (arg : TradesArg) : Except Err (Option ℚ) := do
  ensureCols arg
  let firstT ← liftIdx (rowsOf arg).head?
  let lastT ← liftIdx (rowsOf arg).getLast?
  let last_price := match lastT.exit_price with
    | some p => some p
    | none => lastT.entry_price
  return (do
    let lp ← last_price
    let fp ← firstT.entry_price
    let c ← firstT.contract
    pure ((lp - fp) * c))

/-- `(buy_and_hold / initial_capital) * 100`. -/
def buy_and_hold_percent (arg : TradesArg) : Except Err FVal := do
  let bh ← buy_and_hold arg
  let ic ← initial_capital arg
  return fscale (fdivO bh ic) 100

/-- `profit_factor`: `gross_profit / abs(gross_loss)` when `gross_profit != 0`
(a numpy division, so `+inf` when the loss is zero), else `gross_profit`. -/
def profit_factor (arg : TradesArg) : Except Err FVal := do
  let gp ← gross_profit arg
  let gl ← gross_loss arg
  if gp ≠ 0 then return fdiv gp |gl| else return .fin gp

/-- `trades.contract.max()`. -/
def max_contract_held (arg : TradesArg) : Except Err (Option ℚ) := do
  ensureCols arg
  return maxO ((rowsOf arg).map (·.contract))

/-- `total_closed_trades`: on the list branch the source converts and applies
`dropna(subset=["contract"])` before `len`; on the DataFrame branch the
`dropna` is *not* applied and the plain row count is returned.  On an empty
list, `dropna(subset=["contract"])` raises `KeyError` (no such column). -/
def total_closed_trades (arg : TradesArg) : Except Err Nat :=
  match arg with
  | .list [] => .error .keyError
  | .list ts => .ok (ts.filter (fun t => t.contract.isSome)).length
  | .df d => .ok d.rows.length

/-- `trades.contract.isna().sum()`. -/
def total_open_trades (arg : TradesArg) : Except Err Nat := do
  ensureCols arg
  return ((rowsOf arg).filter (fun t => t.contract.isNone)).length

/-- `trades[trades.profit > 0].contract.count()` (pandas `count` skips NaN). -/
def number_winning_trades (arg : TradesArg) : Except Err Nat := do
  ensureCols arg
  return countSome (((rowsOf arg).filter (fun t => posO t.profit)).map
    (·.contract))

/-- `trades[trades.profit < 0].contract.count()`. -/
def number_losing_trades (arg : TradesArg) : Except Err Nat := do
  ensureCols arg
  return countSome (((rowsOf arg).filter (fun t => negO t.profit)).map
    (·.contract))

/-- `trades.profit.mean()`. -/
def avg_trade (arg : TradesArg) : Except Err (Option ℚ) := do
  ensureCols arg
  return meanO ((rowsOf arg).map (·.profit))

/-- `trades.profit_percent.mean()`. -/
def avg_trade_percent (arg : TradesArg) : Except Err (Option ℚ) := do
  ensureCols arg
  return meanO ((rowsOf arg).map (·.profit_percent))

/-- `trades[trades.profit > 0].profit.mean()`. -/
def avg_winning_trade (arg : TradesArg) : Except Err (Option ℚ) := do
  ensureCols arg
  return meanO (((rowsOf arg).filter (fun t => posO t.profit)).map (·.profit))

/-- `trades[trades.profit > 0].profit_percent.mean()`. -/
def avg_winning_trade_percent (arg : TradesArg) : Except Err (Option ℚ) := do
  ensureCols arg
  return meanO
    (((rowsOf arg).filter (fun t => posO t.profit)).map (·.profit_percent))

/-- `trades[trades.profit < 0].profit.mean()`. -/
def avg_losing_trade (arg : TradesArg) : Except Err (Option ℚ) := do
  ensureCols arg
  return meanO (((rowsOf arg).filter (fun t => negO t.profit)).map (·.profit))

/-- `trades[trades.profit < 0].profit_percent.mean()`. -/
def avg_losing_trade_percent (arg : TradesArg) : Except Err (Option ℚ) := do
  ensureCols arg
  return meanO
    (((rowsOf arg).filter (fun t => negO t.profit)).map (·.profit_percent))

/-- `avg_winning_trade / abs(avg_losing_trade)` (NaN-propagating). -/
def ratio_avg_win_avg_loss (arg : TradesArg) : Except Err FVal := do
  let aw ← avg_winning_trade arg
  let al ← avg_losing_trade arg
  return fdivO aw (al.map (fun q => |q|))

/-- `trades[trades.profit > 0].profit.max()`. -/
def largest_winning_trade (arg : TradesArg) : Except Err (Option ℚ) := do
  ensureCols arg
  return maxO (((rowsOf arg).filter (fun t => posO t.profit)).map (·.profit))

/-- `trades[trades.profit > 0].profit_percent.max()`. -/
def largest_winning_trade_percent (arg : TradesArg) : Except Err (Option ℚ) := do
  ensureCols arg
  return maxO
    (((rowsOf arg).filter (fun t => posO t.profit)).map (·.profit_percent))

/-- `trades[trades.profit < 0].profit.min()`. -/
def largest_losing_trade (arg : TradesArg) : Except Err (Option ℚ) := do
  ensureCols arg
  return minO (((rowsOf arg).filter (fun t => negO t.profit)).map (·.profit))

/-- `trades[trades.profit < 0].profit_percent.min()`. -/
def largest_losing_trade_percent (arg : TradesArg) : Except Err (Option ℚ) := do
  ensureCols arg
  return minO
    (((rowsOf arg).filter (fun t => negO t.profit)).map (·.profit_percent))

/-- `(exit_date - entry_date)` per row; a `NaT` difference (absent exit date)
is skipped by the subsequent `mean`. -/
def durations : List Trade → List ℚ
  | [] => []
  | t :: ts =>
    match t.exit_date with
    | some e => ((tsToSec e - tsToSec t.entry_date : ℤ) : ℚ) :: durations ts
    | none => durations ts

/-- `(trades.exit_date - trades.entry_date).mean().round("1s")`. -/
def avg_bars_in_trades (arg : TradesArg) : Except Err (Option ℤ) := do
  ensureCols arg
  return (meanQ (durations (rowsOf arg))).map roundHalfEven

/-- The duration mean restricted to winning trades. -/
def avg_bars_in_winning_trades (arg : TradesArg) : Except Err (Option ℤ) := do
  ensureCols arg
  return (meanQ (durations ((rowsOf arg).filter
    (fun t => posO t.profit)))).map roundHalfEven

/-- The duration mean restricted to losing trades. -/
def avg_bars_in_losing_trades (arg : TradesArg) : Except Err (Option ℤ) := do
  ensureCols arg
  return (meanQ (durations ((rowsOf arg).filter
    (fun t => negO t.profit)))).map roundHalfEven

end CalculatePerformanceSummary

/-- The labelled vector of 32 statistics returned by
`PerformanceSummary.performance_summary` (the `pd.Series` of the source, in
its exact order). -/
structure PerfSummary where
  net_profit : ℚ
  net_profit_percent : FVal
  gross_profit : ℚ
  gross_profit_percent : FVal
  gross_loss : ℚ
  gross_loss_percent : FVal
  max_run_up : Option ℚ
  max_run_up_percent : Option ℚ
  max_draw_down : Option ℚ
  max_draw_down_percent : Option ℚ
  buy_and_hold : Option ℚ
  buy_and_hold_percent : FVal
  profit_factor : FVal
  max_contract_held : Option ℚ
  total_closed_trades : Nat
  total_open_trades : Nat
  number_winning_trades : Nat
  number_losing_trades : Nat
  avg_trade : Option ℚ
  avg_trade_percent : Option ℚ
  avg_winning_trade : Option ℚ
  avg_winning_trade_percent : Option ℚ
  avg_losing_trade : Option ℚ
  avg_losing_trade_percent : Option ℚ
  ratio_avg_win_avg_loss : FVal
  largest_winning_trade : Option ℚ
  largest_winning_trade_percent : Option ℚ
  largest_losing_trade : Option ℚ
  largest_losing_trade_percent : Option ℚ
  avg_bars_in_trades : Option ℤ
  avg_bars_in_winning_trades : Option ℤ
  avg_bars_in_losing_trades : Option ℤ
deriving DecidableEq

open CalculatePerformanceSummary in
/-- `PerformanceSummary.performance_summary`: computes the 32 statistics in
the source's order over one collection and assembles the labelled vector.
The first raising computation aborts the call. -/
def performance_summary (arg : TradesArg) : Except Err PerfSummary := do
  let v1 ← net_profit arg
  let v2 ← net_profit_percent arg
  let v3 ← gross_profit arg
  let v4 ← gross_profit_percent arg
  let v5 ← gross_loss arg
  let v6 ← gross_loss_percent arg
  let v7 ← max_run_up arg
  let v8 ← max_run_up_percent arg
  let v9 ← max_draw_down arg
  let v10 ← max_draw_down_percent arg
  let v11 ← buy_and_hold arg
  let v12 ← buy_and_hold_percent arg
  let v13 ← profit_factor arg
  let v14 ← max_contract_held arg
  let v15 ← total_closed_trades arg
  let v16 ← total_open_trades arg
  let v17 ← number_winning_trades arg
  let v18 ← number_losing_trades arg
  let v19 ← avg_trade arg
  let v20 ← avg_trade_percent arg
  let v21 ← avg_winning_trade arg
  let v22 ← avg_winning_trade_percent arg
  let v23 ← avg_losing_trade arg
  let v24 ← avg_losing_trade_percent arg
  let v25 ← ratio_avg_win_avg_loss arg
  let v26 ← largest_winning_trade arg
  let v27 ← largest_winning_trade_percent arg
  let v28 ← largest_losing_trade arg
  let v29 ← largest_losing_trade_percent arg
  let v30 ← avg_bars_in_trades arg
  let v31 ← avg_bars_in_winning_trades arg
  let v32 ← avg_bars_in_losing_trades arg
  return {
    net_profit := v1
    net_profit_percent := v2
    gross_profit := v3
    gross_profit_percent := v4
    gross_loss := v5
    gross_loss_percent := v6
    max_run_up := v7
    max_run_up_percent := v8
    max_draw_down := v9
    max_draw_down_percent := v10
    buy_and_hold := v11
    buy_and_hold_percent := v12
    profit_factor := v13
    max_contract_held := v14
    total_closed_trades := v15
    total_open_trades := v16
    number_winning_trades := v17
    number_losing_trades := v18
    avg_trade := v19
    avg_trade_percent := v20
    avg_winning_trade := v21
    avg_winning_trade_percent := v22
    avg_losing_trade := v23
    avg_losing_trade_percent := v24
    ratio_avg_win_avg_loss := v25
    largest_winning_trade := v26
    largest_winning_trade_percent := v27
    largest_losing_trade := v28
    largest_losing_trade_percent := v29
    avg_bars_in_trades := v30
    avg_bars_in_winning_trades := v31
    avg_bars_in_losing_trades := v32 }

/-- Whether a monthly row is the plain month row or the `" Long"` /
`" Short"`-suffixed row. -/
inductive MSuffix where
  | all
  | long
  | short
deriving DecidableEq

/-- A row label of the monthly table: the bin label of
`pd.Grouper(freq="M")` formatted `"%Y-%m-%d"` (the month's last calendar
day), plus the optional direction suffix. -/
structure MLabel where
  y : Nat
  m : Nat
  d : Nat
  suffix : MSuffix
deriving DecidableEq

/-- The label of the month bin `k`: the month-end date with a suffix. -/
def mkLabel (k : Nat) (sfx : MSuffix) : MLabel :=
  let y := k / 12
  let m := k % 12 + 1
  ⟨y, m, daysInMonth y m, sfx⟩

/-- Sequencing of a fallible computation over a list (the loop bodies of the
source propagate the first exception). -/
def mapEx (f : α → Except Err β) : List α → Except Err (List β)
  | [] => .ok []
  | a :: as => do
    let b ← f a
    let bs ← mapEx f as
    return b :: bs

/-- The rows contributed by one month bin: the bin's group (rows whose
`entry_date` falls in month `k`, in input order), summarised as a DataFrame;
with long/short separation, additionally the group filtered to each
direction, in the order all / Long / Short. -/
def monthRows (rows : List Trade) (sep : Bool) (k : Nat) :
    Except Err (List (MLabel × PerfSummary)) := do
  let grp := rows.filter (fun t => monthKey t.entry_date == k)
  let perf ← performance_summary (.df ⟨grp, grp.map (·.entry_date)⟩)
  if sep then
    let grpL := grp.filter (fun t => decide (t.type = TType.long))
    let grpS := grp.filter (fun t => decide (t.type = TType.short))
    let perfL ← performance_summary (.df ⟨grpL, grpL.map (·.entry_date)⟩)
    let perfS ← performance_summary (.df ⟨grpS, grpS.map (·.entry_date)⟩)
    return [(mkLabel k .all, perf), (mkLabel k .long, perfL),
      (mkLabel k .short, perfS)]
  else
    return [(mkLabel k .all, perf)]

/-- The month bins of `trades.groupby(pd.Grouper(freq="M"))`: every calendar
month from the first to the last `entry_date` month, in chronological order
(empty intermediate bins are yielded too). -/
def monthKeysRange (rows : List Trade) : List Nat :=
  match rows.map (fun t => monthKey t.entry_date) with
  | [] => []
  | k :: ks =>
    let lo := ks.foldl min k
    let hi := ks.foldl max k
    (List.range (hi + 1 - lo)).map (fun i => lo + i)

/-- The table body of `monthly_performance` once the index has been set:
iterate the month bins, collect the row(s) of each. -/
def monthlyCompute (rows : List Trade) (sep : Bool) :
    Except Err (List (MLabel × PerfSummary)) := do
  let rss ← mapEx (monthRows rows sep) (monthKeysRange rows)
  return rss.flatten

/-- `PerformanceSummary.monthly_performance`, with the state of the argument
threaded explicitly: a list input is first converted to a fresh DataFrame
(the caller's list is untouched), but a DataFrame input has
`trades.index = pd.to_datetime(trades.entry_date)` assigned *in place*, so
the returned argument state differs from the input.  A list input that is
empty converts to a column-less frame, so the `entry_date` access raises
`AttributeError`. -/
def monthly_performance (arg : TradesArg) (sep : Bool) :
    Except Err (List (MLabel × PerfSummary)) × TradesArg :=
  match arg with
  | .list [] => (.error .attrError, .list [])
  | .list ts => (monthlyCompute ts sep, .list ts)
  | .df d => (monthlyCompute d.rows sep,
      .df { rows := d.rows, index := d.rows.map (·.entry_date) })

/-- `DataFrameTV.performance_summary_long`. -/
def performance_summary_long (trades : List Trade) : Except Err PerfSummary :=
  performance_summary (.list (trades.filter (fun t => decide (t.type = TType.long))))

/-- `DataFrameTV.performance_summary_short`. -/
def performance_summary_short (trades : List Trade) : Except Err PerfSummary :=
  performance_summary (.list (trades.filter (fun t => decide (t.type = TType.short))))

/-- One raw row of the ingested trade log, with the columns
`ConvertTradeTV.convert` reads (`Trade #`, `Type`, `Date/Time`, `Price`,
`Contracts`, `Signal`, `Profit USDT`, `Profit %`, `Drawdown USDT`,
`Drawdown %`, `Run-up USDT`, `Run-up %`, `Cum. Profit USDT`,
`Cum. Profit %`). -/
structure RawRow where
  tradeNum : Nat
  typeStr : String
  dateTime : Ts
  price : Option ℚ
  contracts : Option ℚ
  signal : Option String
  profitUSDT : Option ℚ
  profitPct : Option ℚ
  drawdownUSDT : Option ℚ
  drawdownPct : Option ℚ
  runUpUSDT : Option ℚ
  runUpPct : Option ℚ
  cumProfitUSDT : Option ℚ
  cumProfitPct : Option ℚ
deriving DecidableEq

/-- Helper for `pySplitSpace`: split a character list at every separator
occurrence, keeping empty pieces. -/
def splitChars (sep : Char) : List Char → List Char → List (List Char)
  | [], acc => [acc.reverse]
  | c :: cs, acc =>
    if c = sep then acc.reverse :: splitChars sep cs []
    else splitChars sep cs (c :: acc)

/-- Python's `str.split(" ")`: split at every single space, keeping empty
pieces (`"a  b".split(" ") == ["a", "", "b"]`, `"".split(" ") == [""]`). -/
def pySplitSpace (s : String) : List String :=
  (splitChars ' ' s.data []).map (fun l => ⟨l⟩)

/-- Python's `str.lower()` on the ASCII direction tokens. -/
def pyLower (s : String) : String := ⟨s.data.map Char.toLower⟩

namespace ConvertTradeTV

/-- `ConvertTradeTV.convert`: `_entry = pair_trade.iloc[1]` (raising
`IndexError` on a group of fewer than two rows), `_exit = pair_trade.iloc[0]`;
the direction is `_entry.Type.split(" ")[1].lower()` (raising `IndexError`
when the Type field has no second space-separated token), `"long"` mapping to
long and anything else to short; entry-side fields are copied from `_entry`
and exit-side fields from `_exit`. -/
def convert (pair_trade : List RawRow) : Except Err Trade := do
  let entryRow ← liftIdx pair_trade[1]?
  let exitRow ← liftIdx pair_trade[0]?
  let tok ← liftIdx (pySplitSpace entryRow.typeStr)[1]?
  return {
    type := if pyLower tok = "long" then TType.long else TType.short
    entry_date := entryRow.dateTime
    exit_date := some exitRow.dateTime
    entry_price := entryRow.price
    exit_price := exitRow.price
    contract := entryRow.contracts
    entry_signal := entryRow.signal
    exit_signal := exitRow.signal
    profit := entryRow.profitUSDT
    profit_percent := entryRow.profitPct
    draw_down := entryRow.drawdownUSDT
    draw_down_percent := entryRow.drawdownPct
    run_up := entryRow.runUpUSDT
    run_up_percent := entryRow.runUpPct
    cum_profit := entryRow.cumProfitUSDT
    cum_profit_percent := entryRow.cumProfitPct }

end ConvertTradeTV

/-- Insert a key into an ascending duplicate-free list. -/
def insertAsc (k : Nat) : List Nat → List Nat
  | [] => [k]
  | a :: as =>
    if k < a then k :: a :: as
    else if k = a then a :: as
    else a :: insertAsc k as

/-- The distinct `Trade #` keys in ascending order (`DataFrame.groupby` sorts
group keys by default). -/
def sortedKeys (rows : List RawRow) : List Nat :=
  rows.foldl (fun acc r => insertAsc r.tradeNum acc) []

/-- `trades.groupby("Trade #")` as an association list: keys ascending, rows
of each group in original order. -/
def groupByTradeNum (rows : List RawRow) : List (Nat × List RawRow) :=
  (sortedKeys rows).map (fun k => (k, rows.filter (fun r => r.tradeNum == k)))

/-- Python's `len` applied to an item yielded by iterating a pandas `GroupBy`
object: the item is the 2-tuple `(key, group)`, so its length is always `2`
(the source's `len(trade) == 2` tests this tuple, not the group). -/
def pyLenPair (p : Nat × List RawRow) : Nat :=
  match p with
  | (_, _) => 2

/-- `DataFrameTV.__init__`: the list comprehension
`[ConvertTradeTV.convert(trade[1]) for trade in trades.groupby("Trade #")
if len(trade) == 2]`. -/
def dataFrameTV_trades (rows : List RawRow) : Except Err (List Trade) :=
  mapEx (fun trade => ConvertTradeTV.convert trade.2)
    ((groupByTradeNum rows).filter (fun trade => pyLenPair trade == 2))

/-! ## Concrete sample data

Small concrete trades and raw rows used by the witness and counterexample
theorems below. -/

/-- A profitable long trade entered in January 2022. -/
def t1 : Trade := {
  type := .long
  entry_date := ⟨2022, 1, 5, 0⟩
  entry_price := some 100
  contract := some 1
  exit_date := some ⟨2022, 1, 6, 0⟩
  exit_price := some 110
  profit := some 10
  profit_percent := some 10
  draw_down := some 1
  draw_down_percent := some 1
  run_up := some 2
  run_up_percent := some 2
  cum_profit := some 10
  cum_profit_percent := some 10 }

/-- A losing short trade entered in February 2022. -/
def t2 : Trade := {
  type := .short
  entry_date := ⟨2022, 2, 7, 0⟩
  entry_price := some 200
  contract := some 1
  exit_date := some ⟨2022, 2, 8, 0⟩
  exit_price := some 190
  profit := some (-5)
  profit_percent := some (-5)
  draw_down := some 1
  draw_down_percent := some 1
  run_up := some 2
  run_up_percent := some 2
  cum_profit := some 5
  cum_profit_percent := some 5 }

/-- A trade with positive profit `5` (and hence zero gross loss on its own). -/
def t3 : Trade := {
  type := .long
  entry_date := ⟨2022, 3, 1, 0⟩
  entry_price := some 1
  contract := some 1
  profit := some 5 }

/-- A losing short trade entered in January 2022 (same month as `t1`). -/
def tShort : Trade := {
  type := .short
  entry_date := ⟨2022, 1, 20, 0⟩
  entry_price := some 50
  contract := some 1
  exit_date := none
  exit_price := some 55
  profit := some (-5)
  profit_percent := some (-10) }

/-- First trade of the buy-and-hold scenario: entry price 100, 2 contracts. -/
def tA5 : Trade := {
  type := .long
  entry_date := ⟨2022, 5, 1, 0⟩
  entry_price := some 100
  contract := some 2
  exit_date := some ⟨2022, 5, 2, 0⟩
  exit_price := some 105
  profit := some 10 }

/-- Last trade of the buy-and-hold scenario: exit price 90. -/
def tB5 : Trade := {
  type := .long
  entry_date := ⟨2022, 5, 3, 0⟩
  entry_price := some 95
  contract := some 1
  exit_date := some ⟨2022, 5, 4, 0⟩
  exit_price := some 90
  profit := some (-5) }

/-- A still-open trade: absent (`NaN`) contract size. -/
def tOpen : Trade := {
  type := .long
  entry_date := ⟨2022, 4, 1, 0⟩
  entry_price := some 10
  contract := none }

/-- The exit leg of raw trade pair number 7. -/
def rExit : RawRow := ⟨7, "Exit Long", ⟨2022, 1, 6, 0⟩, some 110, some 1, none,
  none, none, none, none, none, none, none, none⟩

/-- The entry leg of raw trade pair number 7. -/
def rEntry : RawRow := ⟨7, "Entry Long", ⟨2022, 1, 5, 0⟩, some 100, some 1, none,
  some 10, some 10, some 1, some 1, some 2, some 2, some 10, some 10⟩

/-- A lone leg: trade identifier 1 appears exactly once. -/
def rOneLeg : RawRow := ⟨1, "Exit Long", ⟨2022, 1, 6, 0⟩, some 110, some 1, none,
  none, none, none, none, none, none, none, none⟩

/-- First of three rows sharing trade identifier 2. -/
def rTriple1 : RawRow := ⟨2, "Exit Long", ⟨2022, 1, 8, 0⟩, some 120, some 1, none,
  none, none, none, none, none, none, none, none⟩

/-- Second of three rows sharing trade identifier 2. -/
def rTriple2 : RawRow := ⟨2, "Entry Long", ⟨2022, 1, 7, 0⟩, some 100, some 1, none,
  some 20, some 20, some 1, some 1, some 2, some 2, some 20, some 20⟩

/-- Third of three rows sharing trade identifier 2. -/
def rTriple3 : RawRow := ⟨2, "Entry Long", ⟨2022, 1, 9, 0⟩, some 130, some 1, none,
  some 5, some 5, some 1, some 1, some 2, some 2, some 25, some 25⟩

/-- A DataFrame whose index differs from its trades' entry dates. -/
def d9 : DF := ⟨[t1], [⟨1970, 1, 1, 0⟩]⟩

/-! ## Basic reduction lemmas -/

@[simp] theorem long_ne_short : ¬ (TType.long = TType.short) := fun h =>
  TType.noConfusion h

@[simp] theorem short_ne_long : ¬ (TType.short = TType.long) := fun h =>
  TType.noConfusion h

@[simp] theorem okBind {α β : Type} (a : α) (f : α → Except Err β) :
    (Except.ok a >>= f) = f a := rfl

@[simp] theorem errBind {α β : Type} (e : Err) (f : α → Except Err β) :
    ((Except.error e : Except Err α) >>= f) = .error e := rfl

@[simp] theorem pureOk {α : Type} (a : α) : (pure a : Except Err α) = .ok a := rfl

/-- Inversion of a successful `Except` bind. -/
theorem bind_ok_inv {α β : Type} {m : Except Err α} {f : α → Except Err β} {b : β}
    (h : (m >>= f) = .ok b) : ∃ a, m = .ok a ∧ f a = .ok b := by
  cases m with
  | error e => exact absurd h (by intro hh; exact Except.noConfusion hh)
  | ok a => exact ⟨a, rfl, h⟩

/-- A successful `performance_summary` call records exactly the `net_profit`
value in the `Net Profit` slot (the first statistic computed). -/
theorem ps_ok_net {arg : TradesArg} {s : PerfSummary}
    (h : performance_summary arg = .ok s) :
    CalculatePerformanceSummary.net_profit arg = .ok s.net_profit := by
  unfold performance_summary at h
  obtain ⟨v1, h1, h⟩ := bind_ok_inv h
  obtain ⟨v2, h2, h⟩ := bind_ok_inv h
  obtain ⟨v3, h3, h⟩ := bind_ok_inv h
  obtain ⟨v4, h4, h⟩ := bind_ok_inv h
  obtain ⟨v5, h5, h⟩ := bind_ok_inv h
  obtain ⟨v6, h6, h⟩ := bind_ok_inv h
  obtain ⟨v7, h7, h⟩ := bind_ok_inv h
  obtain ⟨v8, h8, h⟩ := bind_ok_inv h
  obtain ⟨v9, h9, h⟩ := bind_ok_inv h
  obtain ⟨v10, h10, h⟩ := bind_ok_inv h
  obtain ⟨v11, h11, h⟩ := bind_ok_inv h
  obtain ⟨v12, h12, h⟩ := bind_ok_inv h
  obtain ⟨v13, h13, h⟩ := bind_ok_inv h
  obtain ⟨v14, h14, h⟩ := bind_ok_inv h
  obtain ⟨v15, h15, h⟩ := bind_ok_inv h
  obtain ⟨v16, h16, h⟩ := bind_ok_inv h
  obtain ⟨v17, h17, h⟩ := bind_ok_inv h
  obtain ⟨v18, h18, h⟩ := bind_ok_inv h
  obtain ⟨v19, h19, h⟩ := bind_ok_inv h
  obtain ⟨v20, h20, h⟩ := bind_ok_inv h
  obtain ⟨v21, h21, h⟩ := bind_ok_inv h
  obtain ⟨v22, h22, h⟩ := bind_ok_inv h
  obtain ⟨v23, h23, h⟩ := bind_ok_inv h
  obtain ⟨v24, h24, h⟩ := bind_ok_inv h
  obtain ⟨v25, h25, h⟩ := bind_ok_inv h
  obtain ⟨v26, h26, h⟩ := bind_ok_inv h
  obtain ⟨v27, h27, h⟩ := bind_ok_inv h
  obtain ⟨v28, h28, h⟩ := bind_ok_inv h
  obtain ⟨v29, h29, h⟩ := bind_ok_inv h
  obtain ⟨v30, h30, h⟩ := bind_ok_inv h
  obtain ⟨v31, h31, h⟩ := bind_ok_inv h
  obtain ⟨v32, h32, h⟩ := bind_ok_inv h
  injection h with h'
  subst h'
  exact h1

/-! ## Helper lemmas about the embedded operations -/

/-- `performance_summary` on an empty Python list raises `AttributeError` at
its first statistic (`net_profit`): the empty list converts to a column-less
frame. -/
theorem performance_summary_list_nil :
    performance_summary (.list []) = .error .attrError := rfl

/-- `performance_summary` on an empty DataFrame (a frame that has columns but
no rows, as produced by an empty month bin or an empty direction filter)
raises `IndexError` at `net_profit_percent` (`initial_capital` reads
`.iloc[0]`). -/
theorem performance_summary_df_nil (idx : List Ts) :
    performance_summary (.df ⟨[], idx⟩) = .error .indexError := rfl

/-- `net_profit` on a DataFrame argument is total: the `NaN`-skipping sum of
the profit column. -/
theorem net_profit_df (d : DF) :
    CalculatePerformanceSummary.net_profit (.df d) =
      .ok (sumSome (d.rows.map (·.profit))) := rfl

/-- A successful `mapEx` run relates inputs and outputs pointwise. -/
theorem mapEx_forall₂ {α β : Type} {f : α → Except Err β} :
    ∀ {l : List α} {rs : List β}, mapEx f l = .ok rs →
      List.Forall₂ (fun a b => f a = .ok b) l rs := by
  intro l
  induction l with
  | nil =>
    intro rs h
    unfold mapEx at h
    injection h with h
    subst h
    exact List.Forall₂.nil
  | cons a as ih =>
    intro rs h
    unfold mapEx at h
    obtain ⟨b, hb, h⟩ := bind_ok_inv h
    obtain ⟨bs, hbs, h⟩ := bind_ok_inv h
    injection h with h
    subst h
    exact List.Forall₂.cons hb (ih hbs)

/-- What a successful month bin contributes: the bin's group is non-empty,
the row labels are the month-end label (alone, or followed by the Long and
Short labels when separation is requested), and the `Net Profit` of the
bin's plain row is the sum of the bin's profits. -/
theorem monthRows_ok_props {rows : List Trade} {sep : Bool} {k : Nat}
    {rs : List (MLabel × PerfSummary)} (h : monthRows rows sep k = .ok rs) :
    (rows.filter (fun t => monthKey t.entry_date == k)) ≠ [] ∧
    rs.map Prod.fst =
      (if sep then [mkLabel k .all, mkLabel k .long, mkLabel k .short]
       else [mkLabel k .all]) ∧
    ((rs.filter (fun r => decide (r.1.suffix = MSuffix.all))).map
      (fun r => r.2.net_profit)).sum =
      sumSome ((rows.filter (fun t => monthKey t.entry_date == k)).map (·.profit)) := by
  unfold monthRows at h
  obtain ⟨perf, hperf, h⟩ := bind_ok_inv h
  have hgrp : rows.filter (fun t => monthKey t.entry_date == k) ≠ [] := by
    intro hnil
    rw [hnil] at hperf
    rw [performance_summary_df_nil] at hperf
    exact Except.noConfusion hperf
  have hnet : perf.net_profit =
      sumSome ((rows.filter (fun t => monthKey t.entry_date == k)).map (·.profit)) := by
    have := ps_ok_net hperf
    rw [net_profit_df] at this
    injection this with h'
    exact h'.symm
  cases sep with
  | false =>
    simp only [if_neg, Bool.false_eq_true, not_false_eq_true] at h ⊢
    injection h with h
    subst h
    refine ⟨hgrp, rfl, ?_⟩
    simp [mkLabel, hnet]
  | true =>
    simp only [if_pos] at h ⊢
    obtain ⟨perfL, hperfL, h⟩ := bind_ok_inv h
    obtain ⟨perfS, hperfS, h⟩ := bind_ok_inv h
    injection h with h
    subst h
    refine ⟨hgrp, rfl, ?_⟩
    simp [mkLabel, hnet]

/-- A left fold by `min` is bounded by its start value. -/
theorem foldl_min_le_init : ∀ (ks : List Nat) (a : Nat), ks.foldl min a ≤ a := by
  intro ks
  induction ks with
  | nil => intro a; exact le_refl a
  | cons k ks ih => intro a; exact le_trans (ih (min a k)) (min_le_left a k)

/-- A left fold by `min` is bounded by every list element. -/
theorem foldl_min_le_mem {x : Nat} :
    ∀ (ks : List Nat) (a : Nat), x ∈ ks → ks.foldl min a ≤ x := by
  intro ks
  induction ks with
  | nil => intro a h; cases h
  | cons k ks ih =>
    intro a h
    rcases List.mem_cons.mp h with rfl | h
    · exact le_trans (foldl_min_le_init ks (min a x)) (min_le_right a x)
    · exact ih (min a k) h

/-- A left fold by `min` is a lower bound of start value and elements. -/
theorem foldl_min_le {x : Nat} (ks : List Nat) (a : Nat) (h : x = a ∨ x ∈ ks) :
    ks.foldl min a ≤ x := by
  rcases h with rfl | h
  · exact foldl_min_le_init ks x
  · exact foldl_min_le_mem ks a h

/-- A left fold by `max` dominates its start value. -/
theorem le_foldl_max_init : ∀ (ks : List Nat) (a : Nat), a ≤ ks.foldl max a := by
  intro ks
  induction ks with
  | nil => intro a; exact le_refl a
  | cons k ks ih => intro a; exact le_trans (le_max_left a k) (ih (max a k))

/-- A left fold by `max` dominates every list element. -/
theorem le_foldl_max_mem {x : Nat} :
    ∀ (ks : List Nat) (a : Nat), x ∈ ks → x ≤ ks.foldl max a := by
  intro ks
  induction ks with
  | nil => intro a h; cases h
  | cons k ks ih =>
    intro a h
    rcases List.mem_cons.mp h with rfl | h
    · exact le_trans (le_max_right a x) (le_foldl_max_init ks (max a x))
    · exact ih (max a k) h

/-- A left fold by `max` is an upper bound of start value and elements. -/
theorem le_foldl_max {x : Nat} (ks : List Nat) (a : Nat) (h : x = a ∨ x ∈ ks) :
    x ≤ ks.foldl max a := by
  rcases h with rfl | h
  · exact le_foldl_max_init ks x
  · exact le_foldl_max_mem ks a h

/-- Every trade's entry month lies in the iterated month-bin range. -/
theorem mem_monthKeysRange {rows : List Trade} {t : Trade} (ht : t ∈ rows) :
    monthKey t.entry_date ∈ monthKeysRange rows := by
  cases rows with
  | nil => cases ht
  | cons t0 ts =>
    unfold monthKeysRange
    simp only [List.map_cons]
    set k0 := monthKey t0.entry_date with hk0
    set ks := ts.map (fun t => monthKey t.entry_date) with hks
    set lo := ks.foldl min k0 with hlo
    set hi := ks.foldl max k0 with hhi
    have hmem : monthKey t.entry_date = k0 ∨ monthKey t.entry_date ∈ ks := by
      rcases List.mem_cons.mp ht with rfl | h
      · exact Or.inl rfl
      · exact Or.inr (by exact List.mem_map_of_mem _ h)
    have h1 : lo ≤ monthKey t.entry_date := foldl_min_le ks k0 hmem
    have h2 : monthKey t.entry_date ≤ hi := le_foldl_max ks k0 hmem
    refine List.mem_map.mpr ⟨monthKey t.entry_date - lo, ?_, by omega⟩
    exact List.mem_range.mpr (by omega)

/-- The month-bin range has no duplicate months. -/
theorem nodup_monthKeysRange (rows : List Trade) : (monthKeysRange rows).Nodup := by
  unfold monthKeysRange
  cases rows with
  | nil => exact List.nodup_nil
  | cons t0 ts =>
    simp only [List.map_cons]
    exact (List.nodup_range _).map (fun a b h => by omega)

/-- The month bins are iterated in strictly increasing chronological order. -/
theorem pairwise_monthKeysRange (rows : List Trade) :
    (monthKeysRange rows).Pairwise (· < ·) := by
  unfold monthKeysRange
  cases rows with
  | nil => exact List.Pairwise.nil
  | cons t0 ts =>
    simp only [List.map_cons]
    refine List.Pairwise.map _ ?_ (List.pairwise_lt_range _)
    intro a b h
    omega

/-- The sum of the positive-profit entries is non-negative. -/
theorem gp_nonneg (rows : List Trade) :
    0 ≤ sumSome ((rows.filter (fun t => posO t.profit)).map (·.profit)) := by
  induction rows with
  | nil => simp [sumSome]
  | cons t ts ih =>
    cases hp : t.profit with
    | none => simpa [List.filter_cons, posO, hp] using ih
    | some p =>
      by_cases hpos : 0 < p
      · simp [List.filter_cons, posO, hp, hpos, sumSome]
        exact add_nonneg (le_of_lt hpos) ih
      · simpa [List.filter_cons, posO, hp, hpos] using ih

/-- The sum of the negative-profit entries is non-positive. -/
theorem gl_nonpos (rows : List Trade) :
    sumSome ((rows.filter (fun t => negO t.profit)).map (·.profit)) ≤ 0 := by
  induction rows with
  | nil => simp [sumSome]
  | cons t ts ih =>
    cases hp : t.profit with
    | none => simpa [List.filter_cons, negO, hp] using ih
    | some p =>
      by_cases hneg : p < 0
      · simp [List.filter_cons, negO, hp, hneg, sumSome]
        exact add_nonpos (le_of_lt hneg) ih
      · simpa [List.filter_cons, negO, hp, hneg] using ih

/-- The `NaN`-skipping profit sum splits into its positive and negative
parts (zero profits contribute to neither side). -/
theorem net_split (rows : List Trade) :
    sumSome (rows.map (·.profit)) =
      sumSome ((rows.filter (fun t => posO t.profit)).map (·.profit)) +
      sumSome ((rows.filter (fun t => negO t.profit)).map (·.profit)) := by
  induction rows with
  | nil => simp [sumSome]
  | cons t ts ih =>
    cases hp : t.profit with
    | none => simpa [List.filter_cons, posO, negO, hp, sumSome] using ih
    | some p =>
      rcases lt_trichotomy p 0 with hneg | hzero | hpos
      · have hnpos : ¬ (0 < p) := by linarith
        simp [List.filter_cons, posO, negO, hp, hneg, hnpos, sumSome] at ih ⊢
        linarith [ih]
      · subst hzero
        simp [List.filter_cons, posO, negO, sumSome, hp, ih]
      · have hnneg : ¬ (p < 0) := by linarith
        simp [List.filter_cons, posO, negO, hp, hpos, hnneg, sumSome] at ih ⊢
        linarith [ih]

/-- Unfolding a `NaN`-skipping sum one entry at a time. -/
theorem sumSome_cons (o : Option ℚ) (l : List (Option ℚ)) :
    sumSome (o :: l) = o.getD 0 + sumSome l := by
  cases o with
  | none => simp [sumSome]
  | some q => simp [sumSome]

/-- Adding a contribution at exactly one key of a duplicate-free key list. -/
theorem sum_if_mem (keys : List Nat) (k0 : Nat) (x : ℚ) (g : Nat → ℚ)
    (hnd : keys.Nodup) (hmem : k0 ∈ keys) :
    (keys.map (fun k => if k0 = k then x + g k else g k)).sum =
      x + (keys.map g).sum := by
  induction keys with
  | nil => cases hmem
  | cons a ks ih =>
    rcases List.mem_cons.mp hmem with rfl | hmem'
    · have hnot : k0 ∉ ks := (List.nodup_cons.mp hnd).1
      have hrest : ks.map (fun k => if k0 = k then x + g k else g k) = ks.map g := by
        refine List.map_congr_left ?_
        intro b hb
        have : k0 ≠ b := fun h => hnot (h ▸ hb)
        simp [this]
      simp [hrest]
      ring
    · have hne : k0 ≠ a := by
        intro h
        exact (List.nodup_cons.mp hnd).1 (h ▸ hmem')
      have ih' := ih (List.nodup_cons.mp hnd).2 hmem'
      simp [hne, ih']
      ring

/-- Summing the per-month profit sums over a duplicate-free key list that
covers every trade reproduces the whole collection's profit sum: the month
bins partition the trades. -/
theorem key_partition_sum (keys : List Nat) (hnd : keys.Nodup) :
    ∀ (ts : List Trade),
      (∀ t ∈ ts, monthKey t.entry_date ∈ keys) →
      (keys.map (fun k =>
        sumSome ((ts.filter (fun t => monthKey t.entry_date == k)).map (·.profit)))).sum
        = sumSome (ts.map (·.profit)) := by
  intro ts
  induction ts with
  | nil =>
    intro _
    have : keys.map (fun k =>
        sumSome (([] : List Trade).filter
          (fun t => monthKey t.entry_date == k) |>.map (·.profit))) =
        keys.map (fun _ => (0 : ℚ)) := by
      refine List.map_congr_left ?_
      intro b _
      simp [sumSome]
    rw [this]
    simp [sumSome]
  | cons t ts' ih =>
    intro hcov
    have hmem : monthKey t.entry_date ∈ keys := hcov t (List.mem_cons_self t ts')
    have hcov' : ∀ u ∈ ts', monthKey u.entry_date ∈ keys := fun u hu =>
      hcov u (List.mem_cons_of_mem t hu)
    have hstep : keys.map (fun k =>
        sumSome (((t :: ts').filter (fun u => monthKey u.entry_date == k)).map (·.profit))) =
        keys.map (fun k =>
          if monthKey t.entry_date = k
          then t.profit.getD 0 +
            sumSome ((ts'.filter (fun u => monthKey u.entry_date == k)).map (·.profit))
          else sumSome ((ts'.filter (fun u => monthKey u.entry_date == k)).map (·.profit))) := by
      refine List.map_congr_left ?_
      intro k _
      by_cases hk : monthKey t.entry_date = k
      · simp [List.filter_cons, hk, sumSome_cons]
      · simp [List.filter_cons, hk]
    rw [hstep, sum_if_mem keys _ _ _ hnd hmem, ih hcov', List.map_cons, sumSome_cons]

/-- Mapping the second components of a pointwise-related pair of lists. -/
theorem forall₂_map_eq {α β γ : Type} {R : α → β → Prop} {g : β → γ} {hfun : α → γ} :
    ∀ {l1 : List α} {l2 : List β}, List.Forall₂ R l1 l2 →
      (∀ a b, R a b → g b = hfun a) → l2.map g = l1.map hfun := by
  intro l1 l2 hf
  induction hf with
  | nil => intro _; rfl
  | cons hab _ ih =>
    intro hg
    simp only [List.map_cons]
    rw [hg _ _ hab, ih hg]

/-- Every left element of a pointwise relation has a related right element. -/
theorem forall₂_mem_left {α β : Type} {R : α → β → Prop} :
    ∀ {l1 : List α} {l2 : List β}, List.Forall₂ R l1 l2 →
      ∀ {a : α}, a ∈ l1 → ∃ b, b ∈ l2 ∧ R a b := by
  intro l1 l2 hf
  induction hf with
  | nil => intro a ha; cases ha
  | cons hab htail ih =>
    intro a ha
    rcases List.mem_cons.mp ha with rfl | ha'
    · exact ⟨_, List.mem_cons_self _ _, hab⟩
    · obtain ⟨b, hb, hr⟩ := ih ha'
      exact ⟨b, List.mem_cons_of_mem _ hb, hr⟩

/-- Filter-map-sum over a flattened list of blocks equals the sum of the
per-block filter-map-sums. -/
theorem flatten_filter_map_sum {α : Type} (p : α → Bool) (f : α → ℚ) :
    ∀ ll : List (List α),
      ((ll.flatten.filter p).map f).sum =
        (ll.map (fun l => ((l.filter p).map f).sum)).sum := by
  intro ll
  induction ll with
  | nil => simp
  | cons l ls ih =>
    simp [List.filter_append, ih]
    rfl

/-- A month-bin label carries the last calendar day of its month. -/
theorem mkLabel_d (k : Nat) (sfx : MSuffix) :
    (mkLabel k sfx).d = daysInMonth (mkLabel k sfx).y (mkLabel k sfx).m := rfl

/-- The value carried by a successful `gross_profit` call. -/
theorem gross_profit_ok_val {arg : TradesArg} {gp : ℚ}
    (h : CalculatePerformanceSummary.gross_profit arg = .ok gp) :
    gp = sumSome (((rowsOf arg).filter (fun t => posO t.profit)).map (·.profit)) := by
  unfold CalculatePerformanceSummary.gross_profit at h
  obtain ⟨u, hu, h⟩ := bind_ok_inv h
  injection h with h'
  exact h'.symm

/-- The value carried by a successful `gross_loss` call. -/
theorem gross_loss_ok_val {arg : TradesArg} {gl : ℚ}
    (h : CalculatePerformanceSummary.gross_loss arg = .ok gl) :
    gl = sumSome (((rowsOf arg).filter (fun t => negO t.profit)).map (·.profit)) := by
  unfold CalculatePerformanceSummary.gross_loss at h
  obtain ⟨u, hu, h⟩ := bind_ok_inv h
  injection h with h'
  exact h'.symm

/-- The value carried by a successful `net_profit` call. -/
theorem net_profit_ok_val {arg : TradesArg} {np : ℚ}
    (h : CalculatePerformanceSummary.net_profit arg = .ok np) :
    np = sumSome ((rowsOf arg).map (·.profit)) := by
  unfold CalculatePerformanceSummary.net_profit at h
  obtain ⟨u, hu, h⟩ := bind_ok_inv h
  injection h with h'
  exact h'.symm

/-! ## Claim theorems -/

/-- Claim C1 (code bug).  The claim says the Trade Reducer drops every
trade-identifier group whose row count is not exactly 2 without raising.  In
the source, the comprehension's guard `len(trade) == 2` measures the
`(key, group)` tuple yielded by `groupby` — always of length 2 — so no group
is ever filtered out: on an identifier appearing once the reducer raises
`IndexError` (at `pair_trade.iloc[1]`), and an identifier appearing three
times yields one Trade record instead of zero.  Zero input rows do produce
zero records. -/
theorem reducer_groupsize_filter_bug :
    dataFrameTV_trades [] = .ok [] ∧
    dataFrameTV_trades [rOneLeg] = .error .indexError ∧
    (∃ t : Trade, dataFrameTV_trades [rTriple1, rTriple2, rTriple3] = .ok [t]) :=
  ⟨rfl, rfl, ⟨_, rfl⟩⟩

/-- Claim C2 (counterexample).  On the collection `[t3]` the Gross Profit is
`5 ≠ 0` and the Gross Loss is `0`, yet the Profit Factor is `+inf` (a numpy
division by zero), not the Gross Profit `5` the claim requires. -/
theorem profit_factor_zero_loss_cex :
    CalculatePerformanceSummary.gross_profit (.list [t3]) = .ok 5 ∧
    CalculatePerformanceSummary.gross_loss (.list [t3]) = .ok 0 ∧
    CalculatePerformanceSummary.profit_factor (.list [t3]) = .ok FVal.inf ∧
    FVal.inf ≠ FVal.fin 5 := by
  refine ⟨?_, ?_, ?_, by decide⟩ <;>
    norm_num [CalculatePerformanceSummary.gross_profit,
      CalculatePerformanceSummary.gross_loss,
      CalculatePerformanceSummary.profit_factor,
      ensureCols, rowsOf, sumSome, posO, negO, fdiv, t3]

/-- Claim C2 (amended).  For every trade collection whose Gross Loss is 0 and
whose Gross Profit is nonzero, the Profit Factor metric returns `+inf`: the
`gross_profit != 0` branch divides by `abs(gross_loss) = 0`.  (The source's
actual fallback is on the other side: Profit Factor equals Gross Profit
exactly when Gross Profit is `0`.) -/
theorem profit_factor_zero_loss_inf (arg : TradesArg) (gp : ℚ)
    (h1 : CalculatePerformanceSummary.gross_profit arg = .ok gp)
    (h2 : CalculatePerformanceSummary.gross_loss arg = .ok 0)
    (h3 : gp ≠ 0) :
    CalculatePerformanceSummary.profit_factor arg = .ok FVal.inf := by
  have hnn : 0 ≤ gp := by rw [gross_profit_ok_val h1]; exact gp_nonneg _
  have hpos : 0 < gp := lt_of_le_of_ne hnn (Ne.symm h3)
  unfold CalculatePerformanceSummary.profit_factor
  simp [h1, h2, h3, fdiv, hpos, not_lt_of_gt hpos]

/-- Witness for the amended C2 theorem at the concrete collection `[t1]`
(gross profit 10, gross loss 0). -/
theorem profit_factor_zero_loss_inf_witness :
    CalculatePerformanceSummary.profit_factor (.list [t1]) = .ok FVal.inf := by
  have h1 : CalculatePerformanceSummary.gross_profit (.list [t1]) = .ok 10 := by
    norm_num [CalculatePerformanceSummary.gross_profit, ensureCols, rowsOf,
      sumSome, posO, t1]
  have h2 : CalculatePerformanceSummary.gross_loss (.list [t1]) = .ok 0 := by
    norm_num [CalculatePerformanceSummary.gross_loss, ensureCols, rowsOf,
      sumSome, negO, t1]
  exact profit_factor_zero_loss_inf (.list [t1]) 10 h1 h2 (by norm_num)

/-- Claim C3 (confirmed).  For every trade collection on which the three sum
metrics evaluate, Gross Profit is ≥ 0, Gross Loss is ≤ 0, and Net Profit
equals Gross Profit + Gross Loss exactly (zero-profit trades contribute to
neither side, and `NaN` profits are skipped by all three sums alike). -/
theorem gross_net_sign_decomposition (arg : TradesArg) (gp gl np : ℚ)
    (h1 : CalculatePerformanceSummary.gross_profit arg = .ok gp)
    (h2 : CalculatePerformanceSummary.gross_loss arg = .ok gl)
    (h3 : CalculatePerformanceSummary.net_profit arg = .ok np) :
    0 ≤ gp ∧ gl ≤ 0 ∧ np = gp + gl := by
  obtain rfl := gross_profit_ok_val h1
  obtain rfl := gross_loss_ok_val h2
  obtain rfl := net_profit_ok_val h3
  exact ⟨gp_nonneg _, gl_nonpos _, net_split _⟩

/-- Witness for C3 at the concrete collection `[t1, t2]` (profits 10, −5). -/
theorem gross_net_sign_decomposition_witness : ∃ gp gl np : ℚ,
    CalculatePerformanceSummary.gross_profit (.list [t1, t2]) = .ok gp ∧
    CalculatePerformanceSummary.gross_loss (.list [t1, t2]) = .ok gl ∧
    CalculatePerformanceSummary.net_profit (.list [t1, t2]) = .ok np ∧
    (0 ≤ gp ∧ gl ≤ 0 ∧ np = gp + gl) := by
  have h1 : CalculatePerformanceSummary.gross_profit (.list [t1, t2]) = .ok 10 := by
    norm_num [CalculatePerformanceSummary.gross_profit, ensureCols, rowsOf,
      sumSome, posO, t1, t2]
  have h2 : CalculatePerformanceSummary.gross_loss (.list [t1, t2]) = .ok (-5) := by
    norm_num [CalculatePerformanceSummary.gross_loss, ensureCols, rowsOf,
      sumSome, negO, t1, t2]
  have h3 : CalculatePerformanceSummary.net_profit (.list [t1, t2]) = .ok 5 := by
    norm_num [CalculatePerformanceSummary.net_profit, ensureCols, rowsOf,
      sumSome, t1, t2]
  exact ⟨10, -5, 5, h1, h2, h3, gross_net_sign_decomposition _ _ _ _ h1 h2 h3⟩

/-- Claim C4 (confirmed).  For every trade collection whose Monthly
Performance Table is produced, summing the `Net Profit` entries of the plain
monthly rows (the rows without a Long/Short suffix) reproduces exactly the
`Net Profit` of the whole-set performance summary: the month bins, keyed by
the calendar month of `entry_date`, partition the collection. -/
theorem monthly_net_profit_partition (ts : List Trade) (sep : Bool)
    (tbl : List (MLabel × PerfSummary)) (s : PerfSummary)
    (h1 : (monthly_performance (.list ts) sep).1 = .ok tbl)
    (h2 : performance_summary (.list ts) = .ok s) :
    ((tbl.filter (fun r => decide (r.1.suffix = MSuffix.all))).map
      (fun r => r.2.net_profit)).sum = s.net_profit := by
  cases ts with
  | nil =>
    rw [performance_summary_list_nil] at h2
    exact absurd h2 (by intro hh; exact Except.noConfusion hh)
  | cons t0 ts' =>
    have h1' : monthlyCompute (t0 :: ts') sep = .ok tbl := h1
    unfold monthlyCompute at h1'
    obtain ⟨rss, hrss, hh⟩ := bind_ok_inv h1'
    injection hh with hh
    subst hh
    have hf2 := mapEx_forall₂ hrss
    rw [flatten_filter_map_sum]
    have hmap : rss.map (fun rs =>
        ((rs.filter (fun r => decide (r.1.suffix = MSuffix.all))).map
          (fun r => r.2.net_profit)).sum)
        = (monthKeysRange (t0 :: ts')).map (fun k =>
            sumSome (((t0 :: ts').filter
              (fun t => monthKey t.entry_date == k)).map (·.profit))) :=
      forall₂_map_eq hf2 (fun k rs hr => (monthRows_ok_props hr).2.2)
    rw [hmap]
    rw [key_partition_sum _ (nodup_monthKeysRange _) _
      (fun t ht => mem_monthKeysRange ht)]
    have hval := net_profit_ok_val (ps_ok_net h2)
    exact hval.symm

set_option maxHeartbeats 4000000 in
/-- Witness for C4: the two-trade collection `[t1, t2]` spans January and
February 2022; its monthly table exists and the monthly net profits sum to
the whole-set net profit. -/
theorem monthly_net_profit_partition_witness :
    ∃ (tbl : List (MLabel × PerfSummary)) (s : PerfSummary),
    (monthly_performance (.list [t1, t2]) false).1 = .ok tbl ∧
    performance_summary (.list [t1, t2]) = .ok s ∧
    ((tbl.filter (fun r => decide (r.1.suffix = MSuffix.all))).map
      (fun r => r.2.net_profit)).sum = s.net_profit := by
  obtain ⟨tbl, h1⟩ : ∃ tbl, (monthly_performance (.list [t1, t2]) false).1 = .ok tbl := by
    show ∃ tbl, monthlyCompute [t1, t2] false = .ok tbl
    norm_num [monthlyCompute, monthKeysRange, monthKey, mapEx, monthRows,
      performance_summary, CalculatePerformanceSummary.net_profit,
      CalculatePerformanceSummary.net_profit_percent,
      CalculatePerformanceSummary.gross_profit,
      CalculatePerformanceSummary.gross_profit_percent,
      CalculatePerformanceSummary.gross_loss,
      CalculatePerformanceSummary.gross_loss_percent,
      CalculatePerformanceSummary.max_run_up,
      CalculatePerformanceSummary.max_run_up_percent,
      CalculatePerformanceSummary.max_draw_down,
      CalculatePerformanceSummary.max_draw_down_percent,
      CalculatePerformanceSummary.buy_and_hold,
      CalculatePerformanceSummary.buy_and_hold_percent,
      CalculatePerformanceSummary.profit_factor,
      CalculatePerformanceSummary.max_contract_held,
      CalculatePerformanceSummary.total_closed_trades,
      CalculatePerformanceSummary.total_open_trades,
      CalculatePerformanceSummary.number_winning_trades,
      CalculatePerformanceSummary.number_losing_trades,
      CalculatePerformanceSummary.avg_trade,
      CalculatePerformanceSummary.avg_trade_percent,
      CalculatePerformanceSummary.avg_winning_trade,
      CalculatePerformanceSummary.avg_winning_trade_percent,
      CalculatePerformanceSummary.avg_losing_trade,
      CalculatePerformanceSummary.avg_losing_trade_percent,
      CalculatePerformanceSummary.ratio_avg_win_avg_loss,
      CalculatePerformanceSummary.largest_winning_trade,
      CalculatePerformanceSummary.largest_winning_trade_percent,
      CalculatePerformanceSummary.largest_losing_trade,
      CalculatePerformanceSummary.largest_losing_trade_percent,
      CalculatePerformanceSummary.avg_bars_in_trades,
      CalculatePerformanceSummary.avg_bars_in_winning_trades,
      CalculatePerformanceSummary.avg_bars_in_losing_trades,
      CalculatePerformanceSummary.durations,
      CalculatePerformanceSummary.initial_capital,
      ensureCols, rowsOf, liftIdx, sumSome, countSome, posO, negO, maxO, minO,
      meanO, meanQ, fdivO, fdiv, fscale, List.range_succ, t1, t2]
  obtain ⟨s, h2⟩ : ∃ s, performance_summary (.list [t1, t2]) = .ok s := by
    norm_num [performance_summary, CalculatePerformanceSummary.net_profit,
      CalculatePerformanceSummary.net_profit_percent,
      CalculatePerformanceSummary.gross_profit,
      CalculatePerformanceSummary.gross_profit_percent,
      CalculatePerformanceSummary.gross_loss,
      CalculatePerformanceSummary.gross_loss_percent,
      CalculatePerformanceSummary.max_run_up,
      CalculatePerformanceSummary.max_run_up_percent,
      CalculatePerformanceSummary.max_draw_down,
      CalculatePerformanceSummary.max_draw_down_percent,
      CalculatePerformanceSummary.buy_and_hold,
      CalculatePerformanceSummary.buy_and_hold_percent,
      CalculatePerformanceSummary.profit_factor,
      CalculatePerformanceSummary.max_contract_held,
      CalculatePerformanceSummary.total_closed_trades,
      CalculatePerformanceSummary.total_open_trades,
      CalculatePerformanceSummary.number_winning_trades,
      CalculatePerformanceSummary.number_losing_trades,
      CalculatePerformanceSummary.avg_trade,
      CalculatePerformanceSummary.avg_trade_percent,
      CalculatePerformanceSummary.avg_winning_trade,
      CalculatePerformanceSummary.avg_winning_trade_percent,
      CalculatePerformanceSummary.avg_losing_trade,
      CalculatePerformanceSummary.avg_losing_trade_percent,
      CalculatePerformanceSummary.ratio_avg_win_avg_loss,
      CalculatePerformanceSummary.largest_winning_trade,
      CalculatePerformanceSummary.largest_winning_trade_percent,
      CalculatePerformanceSummary.largest_losing_trade,
      CalculatePerformanceSummary.largest_losing_trade_percent,
      CalculatePerformanceSummary.avg_bars_in_trades,
      CalculatePerformanceSummary.avg_bars_in_winning_trades,
      CalculatePerformanceSummary.avg_bars_in_losing_trades,
      CalculatePerformanceSummary.durations,
      CalculatePerformanceSummary.initial_capital,
      ensureCols, rowsOf, liftIdx, sumSome, countSome, posO, negO, maxO, minO,
      meanO, meanQ, fdivO, fdiv, fscale, t1, t2]
  exact ⟨tbl, s, h1, h2, monthly_net_profit_partition [t1, t2] false tbl s h1 h2⟩

/-- Claim C5 (confirmed).  For every non-empty trade collection, Buy and Hold
is `(last trade's exit_price − first trade's entry_price) × first trade's
contract_size`, where an absent (`NaN`) exit price on the last trade falls
back to that trade's entry price. -/
theorem buy_and_hold_first_last_rule (ts : List Trade) (t0 tl : Trade)
    (h0 : ts.head? = some t0) (hl : ts.getLast? = some tl) :
    CalculatePerformanceSummary.buy_and_hold (.list ts) =
      .ok ((match tl.exit_price with
            | some p => some p
            | none => tl.entry_price).bind (fun lp =>
          t0.entry_price.bind (fun fp =>
          t0.contract.bind (fun c => some ((lp - fp) * c))))) := by
  cases ts with
  | nil => exact absurd h0 (by simp)
  | cons a as =>
    simp only [List.head?_cons, Option.some.injEq] at h0
    subst h0
    unfold CalculatePerformanceSummary.buy_and_hold
    simp [ensureCols, rowsOf, liftIdx, hl]

/-- Witness for C5: the spec's scenario — first trade entered at 100 with
contract size 2, last trade exited at 90 — gives Buy and Hold = −20. -/
theorem buy_and_hold_first_last_rule_witness :
    CalculatePerformanceSummary.buy_and_hold (.list [tA5, tB5]) = .ok (some (-20)) := by
  have h := buy_and_hold_first_last_rule [tA5, tB5] tA5 tB5 rfl rfl
  rw [h]
  norm_num [tA5, tB5]

/-- Claim C6 (confirmed).  For every retained two-row group, `convert` uses
the row at position 1 as the entry row and the row at position 0 as the exit
row; the direction is the second token of the entry row's Type field split at
spaces, lower-cased, with `"long"` mapping to long and any other token to
short; and the Trade copies price, contracts, signal, profit, percent,
drawdown, run-up and cumulative fields from the entry row and time, price and
signal from the exit row. -/
theorem convert_positions_and_fields (r0 r1 : RawRow) (tok : String)
    (htok : (pySplitSpace r1.typeStr)[1]? = some tok) :
    ConvertTradeTV.convert [r0, r1] = .ok {
      type := if pyLower tok = "long" then TType.long else TType.short
      entry_date := r1.dateTime
      entry_price := r1.price
      contract := r1.contracts
      entry_signal := r1.signal
      exit_date := some r0.dateTime
      exit_price := r0.price
      exit_signal := r0.signal
      profit := r1.profitUSDT
      profit_percent := r1.profitPct
      draw_down := r1.drawdownUSDT
      draw_down_percent := r1.drawdownPct
      run_up := r1.runUpUSDT
      run_up_percent := r1.runUpPct
      cum_profit := r1.cumProfitUSDT
      cum_profit_percent := r1.cumProfitPct } := by
  unfold ConvertTradeTV.convert
  simp [liftIdx, htok]

/-- Witness for C6: a concrete exit/entry pair with Type `"Entry Long"`
converts into the expected long Trade record. -/
theorem convert_positions_and_fields_witness :
    ConvertTradeTV.convert [rExit, rEntry] = .ok {
      type := TType.long
      entry_date := ⟨2022, 1, 5, 0⟩
      entry_price := some 100
      contract := some 1
      entry_signal := none
      exit_date := some ⟨2022, 1, 6, 0⟩
      exit_price := some 110
      exit_signal := none
      profit := some 10
      profit_percent := some 10
      draw_down := some 1
      draw_down_percent := some 1
      run_up := some 2
      run_up_percent := some 2
      cum_profit := some 10
      cum_profit_percent := some 10 } := by
  have h := convert_positions_and_fields rExit rEntry "Long" rfl
  rw [h]
  rfl

/-- Claim C7 (code bug).  The claim says Total Closed Trades counts the
trades with a non-absent `contract_size` for list and columnar-table inputs
alike, so that closed + open = size.  The source applies
`dropna(subset=["contract"])` only on the list branch: on a DataFrame holding
one open trade (absent contract) it reports 1 closed and 1 open trade —
summing to 2 on a 1-trade table — while the list branch correctly reports
0 closed. -/
theorem total_trades_df_branch_bug :
    CalculatePerformanceSummary.total_closed_trades
      (.df ⟨[tOpen], [tOpen.entry_date]⟩) = .ok 1 ∧
    CalculatePerformanceSummary.total_open_trades
      (.df ⟨[tOpen], [tOpen.entry_date]⟩) = .ok 1 ∧
    ([tOpen].filter (fun t => t.contract.isSome)).length = 0 ∧
    CalculatePerformanceSummary.total_closed_trades (.list [tOpen]) = .ok 0 ∧
    CalculatePerformanceSummary.total_open_trades (.list [tOpen]) = .ok 1 :=
  ⟨rfl, rfl, rfl, rfl, rfl⟩

set_option maxHeartbeats 1600000 in
/-- Claim C8 (counterexample).  On the non-empty collection `[t1]` (one long
trade) with long/short separation requested, `monthly_performance` raises
`IndexError` (the short sub-bucket is empty, so its summary fails at
`initial_capital`) instead of contributing three rows for the month. -/
theorem monthly_missing_direction_cex :
    (monthly_performance (.list [t1]) true).1 = .error .indexError := by
  show monthlyCompute [t1] true = .error .indexError
  norm_num [monthlyCompute, monthKeysRange, monthKey, mapEx, monthRows,
    performance_summary, CalculatePerformanceSummary.net_profit,
    CalculatePerformanceSummary.net_profit_percent,
    CalculatePerformanceSummary.gross_profit,
    CalculatePerformanceSummary.gross_profit_percent,
    CalculatePerformanceSummary.gross_loss,
    CalculatePerformanceSummary.gross_loss_percent,
    CalculatePerformanceSummary.max_run_up,
    CalculatePerformanceSummary.max_run_up_percent,
    CalculatePerformanceSummary.max_draw_down,
    CalculatePerformanceSummary.max_draw_down_percent,
    CalculatePerformanceSummary.buy_and_hold,
    CalculatePerformanceSummary.buy_and_hold_percent,
    CalculatePerformanceSummary.profit_factor,
    CalculatePerformanceSummary.max_contract_held,
    CalculatePerformanceSummary.total_closed_trades,
    CalculatePerformanceSummary.total_open_trades,
    CalculatePerformanceSummary.number_winning_trades,
    CalculatePerformanceSummary.number_losing_trades,
    CalculatePerformanceSummary.avg_trade,
    CalculatePerformanceSummary.avg_trade_percent,
    CalculatePerformanceSummary.avg_winning_trade,
    CalculatePerformanceSummary.avg_winning_trade_percent,
    CalculatePerformanceSummary.avg_losing_trade,
    CalculatePerformanceSummary.avg_losing_trade_percent,
    CalculatePerformanceSummary.ratio_avg_win_avg_loss,
    CalculatePerformanceSummary.largest_winning_trade,
    CalculatePerformanceSummary.largest_winning_trade_percent,
    CalculatePerformanceSummary.largest_losing_trade,
    CalculatePerformanceSummary.largest_losing_trade_percent,
    CalculatePerformanceSummary.avg_bars_in_trades,
    CalculatePerformanceSummary.avg_bars_in_winning_trades,
    CalculatePerformanceSummary.avg_bars_in_losing_trades,
    CalculatePerformanceSummary.durations,
    CalculatePerformanceSummary.initial_capital,
    ensureCols, rowsOf, liftIdx, sumSome, countSome, posO, negO, maxO, minO,
    meanO, meanQ, fdivO, fdiv, fscale, List.range_succ, t1]

/-- Claim C8 (amended).  Whenever the Monthly Performance Table is produced
(which requires every iterated month bin and, with separation, each
direction sub-bucket to be non-empty), its row labels are exactly one
month-end label per month of the iterated range — expanded to the
consecutive triple plain / Long / Short when separation is requested — the
iterated months are exactly the calendar months containing at least one
trade, they appear in strictly increasing chronological order, and every
label carries its month's last calendar day. -/
theorem monthly_table_row_structure (ts : List Trade) (sep : Bool)
    (tbl : List (MLabel × PerfSummary))
    (h : (monthly_performance (.list ts) sep).1 = .ok tbl) :
    tbl.map Prod.fst =
      ((monthKeysRange ts).map (fun k =>
        if sep then [mkLabel k .all, mkLabel k .long, mkLabel k .short]
        else [mkLabel k .all])).flatten
    ∧ (∀ k, k ∈ monthKeysRange ts ↔ ∃ t ∈ ts, monthKey t.entry_date = k)
    ∧ (monthKeysRange ts).Pairwise (· < ·)
    ∧ (∀ lbl ∈ tbl.map Prod.fst, lbl.d = daysInMonth lbl.y lbl.m) := by
  cases ts with
  | nil => exact absurd h (by intro hh; exact Except.noConfusion hh)
  | cons t0 ts' =>
    have h' : monthlyCompute (t0 :: ts') sep = .ok tbl := h
    unfold monthlyCompute at h'
    obtain ⟨rss, hrss, hh⟩ := bind_ok_inv h'
    injection hh with hh
    subst hh
    have hf2 := mapEx_forall₂ hrss
    have hfst : rss.flatten.map Prod.fst =
        ((monthKeysRange (t0 :: ts')).map (fun k =>
          if sep then [mkLabel k .all, mkLabel k .long, mkLabel k .short]
          else [mkLabel k .all])).flatten := by
      rw [List.map_flatten]
      congr 1
      exact forall₂_map_eq hf2 (fun k rs hr => (monthRows_ok_props hr).2.1)
    refine ⟨hfst, ?_, pairwise_monthKeysRange _, ?_⟩
    · intro k
      constructor
      · intro hk
        obtain ⟨rs, _, hrs⟩ := forall₂_mem_left hf2 hk
        have hgrp := (monthRows_ok_props hrs).1
        obtain ⟨t, htf⟩ := List.exists_mem_of_ne_nil _ hgrp
        have hm := List.mem_filter.mp htf
        exact ⟨t, hm.1, by simpa using hm.2⟩
      · rintro ⟨t, htmem, rfl⟩
        exact mem_monthKeysRange htmem
    · intro lbl hlbl
      rw [hfst] at hlbl
      obtain ⟨l, hl, hlbl2⟩ := List.mem_flatten.mp hlbl
      obtain ⟨k, _, rfl⟩ := List.mem_map.mp hl
      cases sep with
      | true =>
        simp only [if_pos, List.mem_cons, List.mem_singleton] at hlbl2
        rcases hlbl2 with rfl | rfl | rfl | hfalse
        · exact mkLabel_d k _
        · exact mkLabel_d k _
        · exact mkLabel_d k _
        · cases hfalse
      | false =>
        simp only [Bool.false_eq_true, if_neg, List.mem_singleton,
          not_false_eq_true] at hlbl2
        subst hlbl2
        exact mkLabel_d k _

set_option maxHeartbeats 4000000 in
/-- Witness for the amended C8 theorem: `[t1, tShort]` holds one long and one
short trade in January 2022, so the separated monthly table is produced and
has the claimed row structure. -/
theorem monthly_table_row_structure_witness :
    ∃ tbl, (monthly_performance (.list [t1, tShort]) true).1 = .ok tbl ∧
    (tbl.map Prod.fst =
      ((monthKeysRange [t1, tShort]).map (fun k =>
        [mkLabel k .all, mkLabel k .long, mkLabel k .short])).flatten
    ∧ (∀ k, k ∈ monthKeysRange [t1, tShort] ↔
        ∃ t ∈ [t1, tShort], monthKey t.entry_date = k)
    ∧ (monthKeysRange [t1, tShort]).Pairwise (· < ·)
    ∧ (∀ lbl ∈ tbl.map Prod.fst, lbl.d = daysInMonth lbl.y lbl.m)) := by
  obtain ⟨tbl, h⟩ : ∃ tbl, (monthly_performance (.list [t1, tShort]) true).1 = .ok tbl := by
    show ∃ tbl, monthlyCompute [t1, tShort] true = .ok tbl
    norm_num [monthlyCompute, monthKeysRange, monthKey, mapEx, monthRows,
      performance_summary, CalculatePerformanceSummary.net_profit,
      CalculatePerformanceSummary.net_profit_percent,
      CalculatePerformanceSummary.gross_profit,
      CalculatePerformanceSummary.gross_profit_percent,
      CalculatePerformanceSummary.gross_loss,
      CalculatePerformanceSummary.gross_loss_percent,
      CalculatePerformanceSummary.max_run_up,
      CalculatePerformanceSummary.max_run_up_percent,
      CalculatePerformanceSummary.max_draw_down,
      CalculatePerformanceSummary.max_draw_down_percent,
      CalculatePerformanceSummary.buy_and_hold,
      CalculatePerformanceSummary.buy_and_hold_percent,
      CalculatePerformanceSummary.profit_factor,
      CalculatePerformanceSummary.max_contract_held,
      CalculatePerformanceSummary.total_closed_trades,
      CalculatePerformanceSummary.total_open_trades,
      CalculatePerformanceSummary.number_winning_trades,
      CalculatePerformanceSummary.number_losing_trades,
      CalculatePerformanceSummary.avg_trade,
      CalculatePerformanceSummary.avg_trade_percent,
      CalculatePerformanceSummary.avg_winning_trade,
      CalculatePerformanceSummary.avg_winning_trade_percent,
      CalculatePerformanceSummary.avg_losing_trade,
      CalculatePerformanceSummary.avg_losing_trade_percent,
      CalculatePerformanceSummary.ratio_avg_win_avg_loss,
      CalculatePerformanceSummary.largest_winning_trade,
      CalculatePerformanceSummary.largest_winning_trade_percent,
      CalculatePerformanceSummary.largest_losing_trade,
      CalculatePerformanceSummary.largest_losing_trade_percent,
      CalculatePerformanceSummary.avg_bars_in_trades,
      CalculatePerformanceSummary.avg_bars_in_winning_trades,
      CalculatePerformanceSummary.avg_bars_in_losing_trades,
      CalculatePerformanceSummary.durations,
      CalculatePerformanceSummary.initial_capital,
      ensureCols, rowsOf, liftIdx, sumSome, countSome, posO, negO, maxO, minO,
      meanO, meanQ, fdivO, fdiv, fscale, List.range_succ, t1, tShort]
  have hc := monthly_table_row_structure [t1, tShort] true tbl h
  exact ⟨tbl, h, by simpa using hc⟩

/-- Claim C9 (counterexample).  `monthly_performance` on a columnar-table
input does not leave its input unchanged: the call overwrites the table's
index in place (`trades.index = pd.to_datetime(trades.entry_date)`), so the
DataFrame `d9`, whose index differs from its trades' entry dates, is mutated
by the call. -/
theorem monthly_performance_mutates_df_input :
    (monthly_performance (.df d9) false).2 ≠ .df d9 := by decide

/-- Claim C9 (amended).  `monthly_performance` leaves a plain-list input
unchanged (the list is converted to a fresh DataFrame), while on a
columnar-table input the only state effect is overwriting the table's index
with the trades' entry times; every other metrics operation of the embedding
is a pure function of its argument. -/
theorem monthly_performance_state_effects :
    (∀ (ts : List Trade) (sep : Bool),
      (monthly_performance (.list ts) sep).2 = .list ts) ∧
    (∀ (d : DF) (sep : Bool),
      (monthly_performance (.df d) sep).2 =
        .df { rows := d.rows, index := d.rows.map (·.entry_date) }) := by
  constructor
  · intro ts sep; cases ts <;> rfl
  · intro d sep; rfl

/-- Claim C10 (confirmed).  On the empty trade collection the orchestrator
raises at its first metric instead of returning a vector of undefined
values: `pd.DataFrame([])` has no `profit` column, so `net_profit` — the
first statistic computed — raises `AttributeError`, and so does the whole
`performance_summary` call; in particular `performance_summary_short` on a
collection with no short trade fails the same way. -/
theorem empty_collection_first_metric_raises :
    CalculatePerformanceSummary.net_profit (.list []) = .error .attrError ∧
    performance_summary (.list []) = .error .attrError ∧
    performance_summary_short [t1] = .error .attrError :=
  ⟨rfl, rfl, rfl⟩
